import Mathlib

/-!
Verification development for the AsyncAPI 3.0.0 Python WebSocket client
generator (`generate_client.py`) and the runtime contract of the client
template it emits.

Strings are modelled as their character sequences; the ASCII fragments of
Python's `str.upper` / `str.lower` / `str.capitalize` are modelled exactly
(the generator only manipulates ASCII identifiers and template text).
-/

namespace AsyncApiGen

/-! ## ASCII character helpers (Python `str` case operations, ASCII fragment) -/

def isUpperAZ (c : Char) : Bool := 65 ≤ c.toNat && c.toNat ≤ 90

def isLowerAZ (c : Char) : Bool := 97 ≤ c.toNat && c.toNat ≤ 122

def isDigit09 (c : Char) : Bool := 48 ≤ c.toNat && c.toNat ≤ 57

def asciiLower (c : Char) : Char :=
  if isUpperAZ c then Char.ofNat (c.toNat + 32) else c

def asciiUpper (c : Char) : Char :=
  if isLowerAZ c then Char.ofNat (c.toNat - 32) else c

/-! ## `to_snake_case` — the two `re.sub` passes

`re.sub('(.)([A-Z][a-z]+)', r'\1_\2', text)` : leftmost-first scan; a match is
any character followed by an uppercase letter and a maximal nonempty run of
lowercase letters; an underscore is inserted between group 1 and group 2 and
the scan resumes after the match.
-/

def matchTail1 (l : List Char) : Option (List Char × List Char) :=
  match l with
  | [] => none
  | u :: rest =>
    if isUpperAZ u then
      match h : rest.takeWhile isLowerAZ with
      | [] => none
      | lc :: lcs => some (u :: lc :: lcs, rest.drop (lc :: lcs).length)
    else none

/-- The scan, fuelled to make it structurally recursive (hence computable by
the kernel).  Each step consumes at least one character — by
`matchTail1_length` a match strictly shrinks the tail — so fuel equal to the
input length always suffices and the `0, l => l` catch-all is unreachable
from `sub1`. -/
def sub1Fuel : Nat → List Char → List Char
  | _, [] => []
  | 0, l => l
  | fuel + 1, c :: l =>
    match matchTail1 l with
    | some (g2, rem) => c :: '_' :: (g2 ++ sub1Fuel fuel rem)
    | none => c :: sub1Fuel fuel l

def sub1 (l : List Char) : List Char := sub1Fuel l.length l

/-- `re.sub('([a-z0-9])([A-Z])', r'\1_\2', s1)` : leftmost-first scan; a match
is a lowercase letter or digit followed by an uppercase letter; the scan
resumes after the two matched characters. -/
def sub2 : List Char → List Char
  | [] => []
  | [c] => [c]
  | c :: u :: rest =>
    if (isLowerAZ c || isDigit09 c) && isUpperAZ u then
      c :: '_' :: u :: sub2 rest
    else
      c :: sub2 (u :: rest)

def snakeL (l : List Char) : List Char := (sub2 (sub1 l)).map asciiLower

/-! ## `to_pascal_case` building blocks -/

/-- Python `str.split(sep)` for a one-character separator (always at least
one piece; empty pieces kept). -/
def splitOnChar (sep : Char) : List Char → List (List Char)
  | [] => [[]]
  | c :: rest =>
    match splitOnChar sep rest with
    | [] => [[]]
    | g :: gs => if c = sep then [] :: g :: gs else (c :: g) :: gs

/-- Python `str.split('_')`. -/
def splitUnderscore : List Char → List (List Char) := splitOnChar '_'

/-- Python `str.capitalize()`: first character uppercased, the rest lowercased. -/
def capitalizePy : List Char → List Char
  | [] => []
  | c :: rest => asciiUpper c :: rest.map asciiLower

def pascalL (l : List Char) : List Char :=
  ((splitUnderscore ((l.map fun c => if c = '-' then '_' else c).map
      fun c => if c = ' ' then '_' else c)).map capitalizePy).join

/-! ## The three source conversion functions -/

def to_pascal_case (text : String) : String := ⟨pascalL text.data⟩

def to_snake_case (text : String) : String := ⟨snakeL text.data⟩

def to_kebab_case (text : String) : String :=
  ⟨(to_snake_case text).data.map fun c => if c = '_' then '-' else c⟩

/-- Stated from the spec's words, for the consistency check: kebab is "snake
with separator substitution" (`_` replaced by `-`). -/
def kebabOfSnakeSpec (x : String) : String :=
  ⟨(to_snake_case x).data.map fun c => if c = '_' then '-' else c⟩

/-- Stated from the spec's words, for the consistency check: Pascal is the
"word-capitalized snake" — capitalize each underscore-separated word of the
snake form and concatenate. -/
def pascalOfSnakeSpec (x : String) : String :=
  ⟨((splitUnderscore (to_snake_case x).data).map capitalizePy).join⟩

/-! ## Schema model

A JSON schema node, restricted to the fields the generator reads:
`$ref`, `type`, `enum`, `title`, `description`, `properties`, `required`,
`items`.  An `Option` field is `none` exactly when the key is absent.
-/

inductive Schema : Type where
  | mk (ref : Option String) (type : Option String) (enum : Option (List String))
       (title : Option String) (descr : Option String)
       (props : List (String × Schema)) (required : List String)
       (items : Option Schema) : Schema

def Schema.ref : Schema → Option String | .mk r _ _ _ _ _ _ _ => r
def Schema.type : Schema → Option String | .mk _ t _ _ _ _ _ _ => t
def Schema.enum : Schema → Option (List String) | .mk _ _ e _ _ _ _ _ => e
def Schema.title : Schema → Option String | .mk _ _ _ t _ _ _ _ => t
def Schema.descr : Schema → Option String | .mk _ _ _ _ d _ _ _ => d
def Schema.props : Schema → List (String × Schema) | .mk _ _ _ _ _ p _ _ => p
def Schema.required : Schema → List String | .mk _ _ _ _ _ _ r _ => r
def Schema.items : Schema → Option Schema | .mk _ _ _ _ _ _ _ i => i

/-- Convenience: a bare schema carrying only a `type` key. -/
def schemaOfType (t : String) : Schema := .mk none (some t) none none none [] [] none

/-- Convenience: a bare schema carrying only a `$ref` key. -/
def refSchema (r : String) : Schema := .mk (some r) none none none none [] [] none

/-- Python `schema['$ref'].split('/')[-1]`. -/
def lastSegment (s : String) : String := ⟨(splitOnChar '/' s.data).getLastD []⟩

/-- `get_python_type(schema, all_schemas)`.  The `all_schemas` table is
carried exactly as in the source: it is passed through the `array` recursion
and is never consulted, in particular not to check that a `$ref` target
exists.  When `items` is absent the source recurses on the empty dict `{}`,
which has no `type` and so yields `Any`; that value is inlined here. -/
def get_python_type (schema : Schema) (all_schemas : List (String × Schema)) : String :=
  match schema with
  | .mk ref ty en ti _de _pr _rq it =>
    match ref with
    | some r => to_pascal_case (lastSegment r)
    | none =>
      let schema_type := ty.getD "Any"
      if schema_type = "string" then
        match en with
        | some _ => to_pascal_case (ti.getD "UnknownEnum")
        | none => "str"
      else if schema_type = "integer" then "int"
      else if schema_type = "number" then "float"
      else if schema_type = "boolean" then "bool"
      else if schema_type = "array" then
        match it with
        | some item => "List[" ++ get_python_type item all_schemas ++ "]"
        | none => "List[" ++ "Any" ++ "]"
      else if schema_type = "object" then "Dict[str, Any]"
      else "Any"

/-! ## Emission — `generate_client_code`

The emitted client source is reconstructed byte-for-byte from the template
f-strings of the source.  Literal braces of the generated Python appear as
`\x7b` / `\x7d` escapes.
-/

/-- Python `str.lower()` (ASCII fragment), applied to whole strings. -/
def pyLower (s : String) : String := ⟨s.data.map asciiLower⟩

/-- Python `title.replace(' ', '')` — every space deleted. -/
def removeSpaces (s : String) : String := ⟨s.data.filter fun c => c ≠ ' '⟩

/-- Enum constant name: `enum_value.upper().replace('-', '_').replace(' ', '_').replace('.', '_')`. -/
def enumConstName (v : String) : String :=
  ⟨(((v.data.map asciiUpper).map fun c => if c = '-' then '_' else c).map
      (fun c => if c = ' ' then '_' else c)).map fun c => if c = '.' then '_' else c⟩

/-- One emitted enum member line: `    {const_name} = "{enum_value}"\n`. -/
def enumConstLine (enum_value : String) : String :=
  "    " ++ enumConstName enum_value ++ " = \"" ++ enum_value ++ "\"\n"

/-- The inner loop over `schema['enum']`. -/
def enumConstLinesText (values : List String) : String :=
  values.foldl (fun code v => code ++ enumConstLine v) ""

/-- One enum class section (emitted only for string schemas with a nonempty
`enum` list). -/
def enumClassText (schema_name : String) (schema : Schema) : String :=
  let enum_class_name := to_pascal_case schema_name
  let enum_description := schema.descr.getD ("Enum for " ++ schema_name)
  "\nclass " ++ enum_class_name ++ "(Enum):\n    \"\"\"" ++ enum_description ++ ".\"\"\"\n\n"
    ++ enumConstLinesText (schema.enum.getD [])

/-- The loop over all schemas emitting enum classes; the guard is
`schema.get('type') == 'string' and 'enum' in schema and schema['enum']`
(the third conjunct is Python truthiness: the list is nonempty). -/
def enumsText (schemas : List (String × Schema)) : String :=
  schemas.foldl (fun code p =>
    match p.2.type, p.2.enum with
    | some "string", some (v0 :: vs) => code ++ enumClassText p.1 (p.2)
    | _, _ => code) ""

/-- A required field line: `    {prop_name}: {prop_type}` plus an optional
trailing description comment. -/
def reqFieldLine (schemas : List (String × Schema)) (prop_name : String)
    (prop_schema : Schema) : String :=
  let prop_type := get_python_type prop_schema schemas
  let prop_desc := prop_schema.descr.getD ""
  "    " ++ prop_name ++ ": " ++ prop_type
    ++ (if prop_desc ≠ "" then "  # " ++ prop_desc else "") ++ "\n"

/-- An optional field line: `    {prop_name}: Optional[{prop_type}] = None`
plus an optional trailing description comment. -/
def optFieldLine (schemas : List (String × Schema)) (prop_name : String)
    (prop_schema : Schema) : String :=
  let prop_type := get_python_type prop_schema schemas
  let prop_desc := prop_schema.descr.getD ""
  "    " ++ prop_name ++ ": Optional[" ++ prop_type ++ "] = None"
    ++ (if prop_desc ≠ "" then "  # " ++ prop_desc else "") ++ "\n"

/-- First loop over `properties`: required fields (membership in the
`required` set). -/
def requiredFieldsText (schemas : List (String × Schema))
    (properties : List (String × Schema)) (required : List String) : String :=
  properties.foldl (fun code p =>
    if p.1 ∈ required then code ++ reqFieldLine schemas p.1 p.2 else code) ""

/-- Second loop over `properties`: optional fields. -/
def optionalFieldsText (schemas : List (String × Schema))
    (properties : List (String × Schema)) (required : List String) : String :=
  properties.foldl (fun code p =>
    if p.1 ∈ required then code else code ++ optFieldLine schemas p.1 p.2) ""

/-- One emitted dataclass section (for schemas with `type == 'object'`). -/
def dataclassText (schemas : List (String × Schema)) (schema_name : String)
    (schema : Schema) : String :=
  let class_name := to_pascal_case schema_name
  let class_description := schema.descr.getD ("Data class for " ++ schema_name)
  "\n\n@dataclass\nclass "
    ++ class_name
    ++ ":\n    \"\"\""
    ++ class_description
    ++ ".\"\"\"\n\n"
    ++ requiredFieldsText schemas schema.props schema.required
    ++ optionalFieldsText schemas schema.props schema.required

/-- The loop over all schemas emitting dataclasses. -/
def dataclassesText (schemas : List (String × Schema)) : String :=
  schemas.foldl (fun code p =>
    if p.2.type = some "object" then code ++ dataclassText schemas p.1 p.2 else code) ""

/-- The fixed header of the emitted client (template lines 124-150 of the
source), a function of the spec title and description. -/
def headerText (title description : String) : String :=
  "\"\"\"\nAsyncAPI WebSocket Client for "
    ++ title
    ++ ".\n\n"
    ++ description
    ++ "\n\nThis client was automatically generated from an AsyncAPI 3.0.0 specification.\n\"\"\"\nimport json\nimport ssl\nimport threading\nimport time\nfrom dataclasses import dataclass\nfrom enum import Enum\nfrom typing import Any, Callable, Dict, List, Optional\n\ntry:\n    import certifi\n    import websocket\nexcept ImportError as e:\n    print(\"❌ Missing required dependencies. Install with:\")\n    print(\"   pip install websocket-client certifi\")\n    print(\"   or: poetry install\")\n    raise e\n\n\n# Generated Enums\n"

/-- The client class template (source lines 216-415): connection lifecycle,
reconnection, dispatch, registration and send methods of the generated
client, as literal text. -/
def clientClassText (client_class_name title description server_url : String) : String :=
  "\n\nclass "
    ++ client_class_name
    ++ ":\n    \"\"\"\n    AsyncAPI WebSocket Client for "
    ++ title
    ++ ".\n    \n    "
    ++ description
    ++ "\n    \n    This client provides WebSocket connectivity with automatic message routing,\n    type-safe data handling, and comprehensive error management.\n    \"\"\"\n\n    def __init__(self, server_url: str = \""
    ++ server_url
    ++ "\"):\n        \"\"\"\n        Initialize the WebSocket client.\n        \n        Args:\n            server_url: WebSocket server URL (default: "
    ++ server_url
    ++ ")\n        \"\"\"\n        self.url = server_url\n        self.ws = None\n        self.message_handlers: Dict[str, List[Callable]] = \x7b\x7d\n        self.error_handlers: List[Callable] = []\n        self.connected = False\n        self._thread = None\n        self._should_reconnect = False\n\n    def connect(self, auto_reconnect: bool = False) -> bool:\n        \"\"\"\n        Connect to the WebSocket server.\n        \n        Args:\n            auto_reconnect: Whether to automatically reconnect on disconnect\n            \n        Returns:\n            bool: True if connection successful, False otherwise\n        \"\"\"\n        try:\n            self._should_reconnect = auto_reconnect\n            \n            # Create SSL context with certificate verification\n            ssl_context = ssl.create_default_context(cafile=certifi.where())\n            ssl_context.check_hostname = False\n            ssl_context.verify_mode = ssl.CERT_NONE\n\n            self.ws = websocket.WebSocketApp(\n                self.url,\n                on_open=self._on_open,\n                on_message=self._on_message,\n                on_error=self._on_error,\n                on_close=self._on_close,\n            )\n\n            # Start WebSocket connection in separate thread\n            self._thread = threading.Thread(\n                target=self.ws.run_forever,\n                kwargs=\x7b\"sslopt\": \x7b\"cert_reqs\": ssl.CERT_NONE\x7d\x7d,\n                daemon=True\n            )\n            self._thread.start()\n\n            # Wait for connection to establish\n            time.sleep(1)\n            return self.connected\n\n        except Exception as e:\n            print(f\"❌ Connection failed: \x7be\x7d\")\n            return False\n\n    def disconnect(self) -> None:\n        \"\"\"Disconnect from the WebSocket server.\"\"\"\n        self._should_reconnect = False\n        if self.ws:\n            self.ws.close()\n        self.connected = False\n\n    def wait_for_disconnect(self) -> None:\n        \"\"\"Block until the connection is closed.\"\"\"\n        if self._thread and self._thread.is_alive():\n            self._thread.join()\n\n    def is_connected(self) -> bool:\n        \"\"\"Check if client is currently connected.\"\"\"\n        return self.connected\n\n    def _on_open(self, ws) -> None:\n        \"\"\"Handle WebSocket connection opened.\"\"\"\n        self.connected = True\n        print(f\"✅ Connected to \x7bself.url\x7d\")\n\n    def _on_close(self, ws, close_status_code, close_msg) -> None:\n        \"\"\"Handle WebSocket connection closed.\"\"\"\n        self.connected = False\n        print(f\"🔌 Disconnected from \x7bself.url\x7d \"\n              f\"(code: \x7bclose_status_code\x7d, message: \x7bclose_msg\x7d)\")\n        \n        if self._should_reconnect:\n            print(\"🔄 Attempting to reconnect...\")\n            time.sleep(5)\n            self.connect(auto_reconnect=True)\n\n    def _on_error(self, ws, error) -> None:\n        \"\"\"Handle WebSocket error.\"\"\"\n        print(f\"❌ WebSocket error: \x7berror\x7d\")\n        for handler in self.error_handlers:\n            try:\n                handler(error)\n            except Exception as e:\n                print(f\"❌ Error handler failed: \x7be\x7d\")\n\n    def _on_message(self, ws, message: str) -> None:\n        \"\"\"Handle incoming WebSocket message.\"\"\"\n        try:\n            data = json.loads(message)\n            message_type = data.get(\"type\", \"unknown\")\n\n            if message_type in self.message_handlers:\n                for handler in self.message_handlers[message_type]:\n                    try:\n                        handler(data)\n                    except Exception as e:\n                        print(f\"❌ Message handler error: \x7be\x7d\")\n            else:\n                print(f\"⚠️  No handler for message type: \x7bmessage_type\x7d\")\n\n        except json.JSONDecodeError as e:\n            print(f\"❌ Failed to decode message: \x7be\x7d\")\n            print(f\"   Raw message: \x7bmessage\x7d\")\n\n    def register_message_handler(\n        self,\n        message_type: str,\n        handler: Callable[[Dict[str, Any]], None]\n    ) -> None:\n        \"\"\"\n        Register a handler for specific message types.\n        \n        Args:\n            message_type: Type of message to handle\n            handler: Function to call when message is received\n        \"\"\"\n        if message_type not in self.message_handlers:\n            self.message_handlers[message_type] = []\n        self.message_handlers[message_type].append(handler)\n\n    def register_error_handler(\n        self,\n        handler: Callable[[Exception], None]\n    ) -> None:\n        \"\"\"\n        Register an error handler.\n        \n        Args:\n            handler: Function to call when errors occur\n        \"\"\"\n        self.error_handlers.append(handler)\n\n    def send_message(self, data: Dict[str, Any]) -> bool:\n        \"\"\"\n        Send a message to the server.\n        \n        Args:\n            data: Message data to send\n            \n        Returns:\n            bool: True if message sent successfully, False otherwise\n        \"\"\"\n        if not self.connected or not self.ws:\n            print(\"❌ Cannot send message: Not connected to server\")\n            return False\n\n        try:\n            message = json.dumps(data, default=str)\n            self.ws.send(message)\n            return True\n        except Exception as e:\n            print(f\"❌ Failed to send message: \x7be\x7d\")\n            return False\n\n    def send_raw_message(self, message: str) -> bool:\n        \"\"\"\n        Send a raw string message to the server.\n        \n        Args:\n            message: Raw message string to send\n            \n        Returns:\n            bool: True if message sent successfully, False otherwise\n        \"\"\"\n        if not self.connected or not self.ws:\n            print(\"❌ Cannot send message: Not connected to server\")\n            return False\n\n        try:\n            self.ws.send(message)\n            return True\n        except Exception as e:\n            print(f\"❌ Failed to send raw message: \x7be\x7d\")\n            return False\n"

/-- Per-message `send_*` / `on_*` method pair (source lines 423-451). -/
def messageMethodText (method_name message_name : String) : String :=
  "\n    def send_"
    ++ method_name
    ++ "(self, payload: Dict[str, Any]) -> bool:\n        \"\"\"\n        Send "
    ++ message_name
    ++ " message.\n        \n        Args:\n            payload: Message payload data\n            \n        Returns:\n            bool: True if message sent successfully\n        \"\"\"\n        message_data = \x7b\n            \"type\": \""
    ++ message_name
    ++ "\",\n            \"payload\": payload\n        \x7d\n        return self.send_message(message_data)\n\n    def on_"
    ++ method_name
    ++ "(\n        self, \n        handler: Callable[[Dict[str, Any]], None]\n    ) -> None:\n        \"\"\"\n        Register handler for "
    ++ message_name
    ++ " messages.\n        \n        Args:\n            handler: Function to call when "
    ++ message_name
    ++ " is received\n        \"\"\"\n        self.register_message_handler(\""
    ++ message_name
    ++ "\", handler)\n"

/-- Opening of the example `main()` (source lines 454-464). -/
def exampleMainHeaderText (title client_class_name : String) : String :=
  "\n\ndef main() -> None:\n    \"\"\"Example usage of the "
    ++ title
    ++ " client.\"\"\"\n    client = "
    ++ client_class_name
    ++ "()\n    \n    print(f\"🚀 Starting \x7bclient.__class__.__name__\x7d...\")\n    print(f\"   Server URL: \x7bclient.url\x7d\")\n    \n    # Register message handlers\n"

/-- Per-message example handler in `main()` (source lines 471-478). -/
def handlerExampleText (method_name message_name : String) : String :=
  "\n    def handle_"
    ++ method_name
    ++ "(data: Dict[str, Any]) -> None:\n        \"\"\"Handle "
    ++ message_name
    ++ " messages.\"\"\"\n        payload = data.get(\"payload\", \x7b\x7d)\n        print(f\"📨 Received "
    ++ message_name
    ++ ": \x7bpayload\x7d\")\n    \n    client.on_"
    ++ method_name
    ++ "(handle_"
    ++ method_name
    ++ ")\n"

/-- Closing of the example `main()` (source lines 480-511). -/
def exampleMainFooterText : String :=
  "\n    # Register error handler\n    def handle_error(error: Exception) -> None:\n        \"\"\"Handle connection errors.\"\"\"\n        print(f\"❌ Connection error: \x7berror\x7d\")\n    \n    client.register_error_handler(handle_error)\n    \n    # Connect to server\n    if client.connect(auto_reconnect=True):\n        print(\"✅ Connected! Press Ctrl+C to disconnect.\")\n        \n        # Example: Send a message after connection\n        # Uncomment and modify as needed:\n        # client.send_your_message(\x7b\"example\": \"data\"\x7d)\n        \n        try:\n            # Keep client running\n            client.wait_for_disconnect()\n        except KeyboardInterrupt:\n            print(\"\\n🛑 Shutting down...\")\n            client.disconnect()\n    else:\n        print(\"❌ Failed to connect to server\")\n        return 1\n    \n    return 0\n\n\nif __name__ == \"__main__\":\n    exit(main())\n"

/-- A channel: ordered mapping of message name to message body; the generator
iterates the names and never reads the bodies, so only names are modelled. -/
structure Channel where
  messages : List String

/-- The per-channel, per-message method loop (source lines 418-451):
`method_name = to_snake_case(message_name).lower()`. -/
def methodsText (channels : List (String × Channel)) : String :=
  channels.foldl (fun code ch =>
    ch.2.messages.foldl (fun code message_name =>
      let method_name := pyLower (to_snake_case message_name)
      code ++ messageMethodText method_name message_name) code) ""

/-- The per-message example handlers loop (source lines 467-478). -/
def handlerExamplesText (channels : List (String × Channel)) : String :=
  channels.foldl (fun code ch =>
    ch.2.messages.foldl (fun code message_name =>
      let method_name := pyLower (to_snake_case message_name)
      code ++ handlerExampleText method_name message_name) code) ""

/-- `to_pascal_case(title.replace(' ', '')) + 'Client'`. -/
def client_class_name_of (title : String) : String :=
  to_pascal_case (removeSpaces title) ++ "Client"

/-- `generate_client_code(title, description, server_url, schemas, channels)`:
the complete emitted client source text. -/
def generate_client_code (title description server_url : String)
    (schemas : List (String × Schema)) (channels : List (String × Channel)) : String :=
  let client_class_name := client_class_name_of title
  headerText title description
    ++ enumsText schemas
    ++ "\n\n# Generated Data Classes"
    ++ dataclassesText schemas
    ++ clientClassText client_class_name title description server_url
    ++ methodsText channels
    ++ exampleMainHeaderText title client_class_name
    ++ handlerExamplesText channels
    ++ exampleMainFooterText

/-! ## Generated client runtime — inbound dispatch (`_on_message`,
`register_message_handler`, template lines 326-359)

`self.message_handlers` is a Python dict `message name → list of handlers`;
it is modelled as an association list in key-insertion order.  A handler's
behaviour is abstracted as a function returning `Except` (an exception or
normal return); `_on_message` wraps every call in `try/except`, so each
handler yields exactly one event and dispatch continues.
-/

structure FrameObj where
  typeField : Option String
  fields : List (String × String)

/-- `data.get("type", "unknown")`. -/
def discriminator (f : FrameObj) : String := f.typeField.getD "unknown"

/-- Python dict lookup on an association list (keys of a dict are unique;
first match). -/
def regLookup (k : String) : List (String × α) → Option α
  | [] => none
  | p :: rest => if p.1 = k then some p.2 else regLookup k rest

/-- `register_message_handler(message_type, handler)`: create the key with an
empty list when absent, then append the handler. -/
def register_message_handler (handlers : List (String × List H))
    (message_type : String) (handler : H) : List (String × List H) :=
  let handlers :=
    if (regLookup message_type handlers).isSome then handlers
    else handlers ++ [(message_type, [])]
  handlers.map fun p => if p.1 = message_type then (p.1, p.2 ++ [handler]) else p

inductive DispatchEvent (H : Type) where
  | handlerOk (h : H)
  | handlerError (h : H) (e : String)
  | noHandler (message_type : String)
  | decodeError
deriving DecidableEq

/-- The inner handler loop: each handler call is wrapped in `try/except`, so a
raising handler produces a reported error event and the loop continues. -/
def runHandlers (run : H → FrameObj → Except String Unit) (data : FrameObj)
    (hs : List H) : List (DispatchEvent H) :=
  hs.map fun h =>
    match run h data with
    | .ok _ => .handlerOk h
    | .error e => .handlerError h e

/-- `_on_message`: decode (the `json.loads` outcome is the `decoded`
argument), extract the discriminator, then either run every registered
handler or report the missing handler.  The body never assigns
`self.connected`, so the connection flag is passed through unchanged. -/
def on_message (handlers : List (String × List H))
    (run : H → FrameObj → Except String Unit) (connected : Bool)
    (decoded : Option FrameObj) : Bool × List (DispatchEvent H) :=
  match decoded with
  | none => (connected, [.decodeError])
  | some data =>
    let message_type := discriminator data
    match regLookup message_type handlers with
    | some hs => (connected, runHandlers run data hs)
    | none => (connected, [.noHandler message_type])

/-! ## Generated client runtime — outbound send (`send_message`, template
lines 373-393) -/

inductive SendEvent (T : Type) where
  | wrote (w : T) (message : String)
  | errNotConnected
  | errSendFailed (e : String)
deriving DecidableEq

/-- `send_message(data)`: guard `not self.connected or not self.ws`, then
`json.dumps` (its outcome is the `serialized` argument) and `self.ws.send`
inside `try/except`.  Total: every outcome is a boolean plus report events. -/
def send_message (connected : Bool) (ws : Option T)
    (serialized : Except String String)
    (wsSend : T → String → Except String Unit) : Bool × List (SendEvent T) :=
  match connected, ws with
  | false, _ => (false, [.errNotConnected])
  | true, none => (false, [.errNotConnected])
  | true, some w =>
    match serialized with
    | .error e => (false, [.errSendFailed e])
    | .ok message =>
      match wsSend w message with
      | .ok _ => (true, [.wrote w message])
      | .error e => (false, [.wrote w message, .errSendFailed e])

/-! ## Generated client runtime — close/reconnect loop (`_on_close`,
`disconnect`, template lines 285-315)

Small-step trace model of the interleaving between the background close
handler and a foreground `disconnect()` call:

* `abnormalClose` — `_on_close` runs: `self.connected = False`, then the
  single read of `self._should_reconnect`; when it is set the handler enters
  the fixed `time.sleep(5)` delay (`sleeping`).
* `wakeRetry` — the delay elapses and `self.connect(auto_reconnect=True)`
  runs.  The source re-reads nothing after the sleep: the retry is
  unconditional, and `connect` re-arms the flag.
* `userDisconnect` — `disconnect()`: clears the flag, closes the transport.
-/

inductive RtEvent where
  | abnormalClose
  | wakeRetry
  | userDisconnect
deriving DecidableEq

structure RtState where
  shouldReconnect : Bool
  connected : Bool
  sleeping : Bool
  reconnectAttempts : Nat
deriving DecidableEq

def rtStep (s : RtState) : RtEvent → RtState
  | .abnormalClose =>
    if s.shouldReconnect then
      { s with connected := false, sleeping := true }
    else
      { s with connected := false }
  | .wakeRetry =>
    if s.sleeping then
      { s with sleeping := false, shouldReconnect := true, connected := true,
               reconnectAttempts := s.reconnectAttempts + 1 }
    else s
  | .userDisconnect => { s with shouldReconnect := false, connected := false }

def rtRun (s : RtState) (tr : List RtEvent) : RtState := tr.foldl rtStep s

/-- The handlers a sequence of `register_message_handler` calls registers for
key `k`, in registration order. -/
def handlersFor (k : String) (regs : List (String × H)) : List H :=
  (regs.filter fun p => decide (p.1 = k)).map fun p => p.2

/-- The registry resulting from a sequence of registration calls, starting
from the empty dict of `__init__`. -/
def buildRegistry (regs : List (String × H)) : List (String × List H) :=
  regs.foldl (fun handlers p => register_message_handler handlers p.1 p.2) []

/-! ## Theorems -/

/-- A `matchTail1` match consumes at least one character of the tail, so in
`sub1` fuel equal to the input length suffices. -/
theorem matchTail1_length {l g rem : List Char} (h : matchTail1 l = some (g, rem)) :
    rem.length < l.length := by
  cases l with
  | nil => simp [matchTail1] at h
  | cons u rest =>
    simp only [matchTail1] at h
    split at h
    · split at h
      · exact absurd h (by simp)
      · simp only [Option.some.injEq, Prod.mk.injEq] at h
        obtain ⟨-, hrem⟩ := h
        subst hrem
        calc (rest.drop _).length ≤ rest.length := by
              rw [List.length_drop]; omega
          _ < (u :: rest).length := by simp
    · exact absurd h (by simp)

/-! ## String accumulation lemmas -/

theorem strAppend_assoc (a b c : String) : a ++ b ++ c = a ++ (b ++ c) := by
  apply String.ext
  simp [String.data_append]

theorem strEmpty_append (s : String) : "" ++ s = s := by
  apply String.ext
  rw [String.data_append]
  rfl

theorem join_cons (s : String) (l : List String) :
    String.join (s :: l) = s ++ String.join l := by
  apply String.ext
  simp [String.join_eq, String.data_append]

/-- Unconditional accumulation loop: the result is the seed followed by one
block per element, in list order. -/
theorem foldl_append_eq_join (f : α → String) (l : List α) (s : String) :
    l.foldl (fun code a => code ++ f a) s = s ++ String.join (l.map f) := by
  induction l generalizing s with
  | nil =>
    apply String.ext
    simp [String.join_eq, String.data_append]
  | cons a rest ih =>
    rw [List.foldl_cons, ih, List.map_cons, join_cons, strAppend_assoc]

/-- Guarded accumulation loop (append on `p`): the result is the seed followed
by one block per element satisfying `p`, in list order. -/
theorem foldl_ite_append_eq_join (p : α → Prop) [DecidablePred p] (f : α → String)
    (l : List α) (s : String) :
    l.foldl (fun code a => if p a then code ++ f a else code) s
      = s ++ String.join (((l.filter fun a => decide (p a)).map f)) := by
  induction l generalizing s with
  | nil =>
    apply String.ext
    simp [String.join_eq, String.data_append]
  | cons a rest ih =>
    by_cases h : p a
    · rw [List.foldl_cons, if_pos h, ih]
      have : (a :: rest).filter (fun a => decide (p a)) = a :: rest.filter fun a => decide (p a) := by
        simp [List.filter_cons, h]
      rw [this, List.map_cons, join_cons, strAppend_assoc]
    · rw [List.foldl_cons, if_neg h, ih]
      have : (a :: rest).filter (fun a => decide (p a)) = rest.filter fun a => decide (p a) := by
        simp [List.filter_cons, h]
      rw [this]

/-- Guarded accumulation loop (append on `¬ p`). -/
theorem foldl_ite_skip_eq_join (p : α → Prop) [DecidablePred p] (f : α → String)
    (l : List α) (s : String) :
    l.foldl (fun code a => if p a then code else code ++ f a) s
      = s ++ String.join (((l.filter fun a => !decide (p a)).map f)) := by
  induction l generalizing s with
  | nil =>
    apply String.ext
    simp [String.join_eq, String.data_append]
  | cons a rest ih =>
    by_cases h : p a
    · rw [List.foldl_cons, if_pos h, ih]
      have : (a :: rest).filter (fun a => !decide (p a)) = rest.filter fun a => !decide (p a) := by
        simp [List.filter_cons, h]
      rw [this]
    · rw [List.foldl_cons, if_neg h, ih]
      have : (a :: rest).filter (fun a => !decide (p a)) = a :: rest.filter fun a => !decide (p a) := by
        simp [List.filter_cons, h]
      rw [this, List.map_cons, join_cons, strAppend_assoc]

/-- C7 — The emitted record lists every required field (those named in the
schema's `required` set) before every optional field, each group in the order
the schema declares its properties; in particular `required:["a"]` with
properties `{a: string, b: integer}` emits required `a` before optional `b`. -/
theorem record_required_fields_precede_optional
    (schemas : List (String × Schema)) (schema_name : String) (schema : Schema) :
    dataclassText schemas schema_name schema
      = "\n\n@dataclass\nclass " ++ to_pascal_case schema_name ++ ":\n    \"\"\""
        ++ (schema.descr.getD ("Data class for " ++ schema_name)) ++ ".\"\"\"\n\n"
        ++ String.join ((schema.props.filter fun p => decide (p.1 ∈ schema.required)).map
             fun p => reqFieldLine schemas p.1 p.2)
        ++ String.join ((schema.props.filter fun p => !decide (p.1 ∈ schema.required)).map
             fun p => optFieldLine schemas p.1 p.2) ∧
    dataclassText [] "ab" (Schema.mk none (some "object") none none none
        [("a", schemaOfType "string"), ("b", schemaOfType "integer")] ["a"] none)
      = "\n\n@dataclass\nclass Ab:\n    \"\"\"Data class for ab.\"\"\"\n\n"
        ++ "    a: str\n" ++ "    b: Optional[int] = None\n" := by
  constructor
  · unfold dataclassText requiredFieldsText optionalFieldsText
    rw [foldl_ite_append_eq_join (fun p : String × Schema => p.1 ∈ schema.required)
          (fun p => reqFieldLine schemas p.1 p.2),
        foldl_ite_skip_eq_join (fun p : String × Schema => p.1 ∈ schema.required)
          (fun p => optFieldLine schemas p.1 p.2)]
    apply String.ext
    simp [String.data_append]
  · rfl

/-- C8 — Every string schema with a nonempty `enum` list yields exactly one
constant per literal value, in declaration order, the constant name being the
value uppercased with `-`, space and `.` replaced by `_`; enum values
`["high","low"]` yield exactly the constants `HIGH` and `LOW`. -/
theorem enum_one_constant_per_value :
    (∀ values : List String,
        enumConstLinesText values = String.join (values.map enumConstLine)) ∧
    enumConstName "high" = "HIGH" ∧ enumConstName "low" = "LOW" ∧
    enumsText [("priority",
        Schema.mk none (some "string") (some ["high", "low"]) none none [] [] none)]
      = "\nclass Priority(Enum):\n    \"\"\"Enum for priority.\"\"\"\n\n"
        ++ "    HIGH = \"high\"\n" ++ "    LOW = \"low\"\n" := by
  refine ⟨fun values => ?_, rfl, rfl, rfl⟩
  unfold enumConstLinesText
  rw [foldl_append_eq_join, strEmpty_append]

/-- C1 — Emission is deterministic: two runs of the generator on the same
parsed specification (same title, description, server, schema table, channel
table) produce byte-identical client source text. -/
theorem determinism_generate_client_code
    (t₁ d₁ u₁ : String) (s₁ : List (String × Schema)) (c₁ : List (String × Channel))
    (t₂ d₂ u₂ : String) (s₂ : List (String × Schema)) (c₂ : List (String × Channel))
    (ht : t₁ = t₂) (hd : d₁ = d₂) (hu : u₁ = u₂) (hs : s₁ = s₂) (hc : c₁ = c₂) :
    generate_client_code t₁ d₁ u₁ s₁ c₁ = generate_client_code t₂ d₂ u₂ s₂ c₂ := by
  subst ht hd hu hs hc
  rfl

theorem determinism_generate_client_code_witness :
    generate_client_code "T" "D" "wss://h" [] [] = generate_client_code "T" "D" "wss://h" [] [] :=
  determinism_generate_client_code "T" "D" "wss://h" [] [] "T" "D" "wss://h" [] []
    rfl rfl rfl rfl rfl

/-- C2 counterexample — A property whose `$ref` names a schema absent from
the (here empty) schema table is mapped to the Pascal-cased unresolved name
`Missing`, not to the generic type `Any`. -/
theorem unresolved_ref_counterexample :
    get_python_type (refSchema "#/components/schemas/Missing") [] = "Missing" ∧
    ("Missing" : String) ≠ "Any" ∧
    get_python_type (refSchema "#/components/schemas/Missing") [] ≠ "Any" := by
  refine ⟨rfl, by decide, by decide⟩

/-- C2 amended — For every schema property carrying `$ref`, type resolution
returns the Pascal-cased last path segment of the reference, independent of
the schema table (the table is never consulted, so an unresolved name is
emitted as-is rather than degraded to the generic type); generation of the
rest of the model still completes without aborting, as the concrete record
with a dangling reference shows. -/
theorem ref_type_ignores_schema_table
    (r : String) (ty : Option String) (en : Option (List String))
    (ti de : Option String) (pr : List (String × Schema)) (rq : List String)
    (it : Option Schema) (all_schemas : List (String × Schema)) :
    get_python_type (Schema.mk (some r) ty en ti de pr rq it) all_schemas
      = to_pascal_case (lastSegment r) ∧
    dataclassText [] "device" (Schema.mk none (some "object") none none none
        [("status", refSchema "#/components/schemas/Missing")] ["status"] none)
      = "\n\n@dataclass\nclass Device:\n    \"\"\"Data class for device.\"\"\"\n\n"
        ++ "    status: Missing\n" :=
  ⟨rfl, rfl⟩

/-- C5 — The generated send operation never raises (it is a total function
into a boolean plus report events): when the client is not connected or has
no transport it returns `False` without any transport write, when
serialization or the transport write fails it returns `False`, and it
returns `True` exactly when the serialized message was handed to the
transport successfully. -/
theorem send_message_boolean_contract {T : Type}
    (connected : Bool) (ws : Option T) (serialized : Except String String)
    (wsSend : T → String → Except String Unit) :
    ((send_message connected ws serialized wsSend).1 = true
        ↔ connected = true ∧ ∃ w, ws = some w ∧
            ∃ m, serialized = .ok m ∧ wsSend w m = .ok ()) ∧
    (connected = false ∨ ws = none →
        send_message connected ws serialized wsSend = (false, [.errNotConnected])) := by
  constructor
  · constructor
    · intro h
      cases connected with
      | false => simp [send_message] at h
      | true =>
        cases ws with
        | none => simp [send_message] at h
        | some w =>
          cases serialized with
          | error e => simp [send_message] at h
          | ok m =>
            refine ⟨rfl, w, rfl, m, rfl, ?_⟩
            cases hsend : wsSend w m with
            | ok u => cases u; rfl
            | error e => simp [send_message, hsend] at h
    · rintro ⟨hc, w, hw, m, hm, hsend⟩
      subst hc hw hm
      simp [send_message, hsend]
  · rintro (hc | hw)
    · subst hc; rfl
    · subst hw; cases connected <;> rfl

theorem send_message_boolean_contract_witness :
    (@send_message Unit true (some ()) (.ok "x") fun _ _ => .ok ()).1 = true ∧
    @send_message Unit false none (.ok "x") (fun _ _ => .ok ()) = (false, [.errNotConnected]) :=
  ⟨(send_message_boolean_contract true (some ()) (.ok "x") fun _ _ => .ok ()).1.mpr
      ⟨rfl, (), rfl, "x", rfl, rfl⟩,
    (send_message_boolean_contract false none (.ok "x") fun _ _ => .ok ()).2 (Or.inl rfl)⟩

/-! ## Handler registry lemmas -/

theorem regLookup_map_update (l : List (String × List H)) (mt k : String) (h : H) :
    regLookup k (l.map fun p => if p.1 = mt then (p.1, p.2 ++ [h]) else p)
      = (regLookup k l).map fun v => if k = mt then v ++ [h] else v := by
  induction l with
  | nil => rfl
  | cons p rest ih =>
    simp only [List.map_cons]
    by_cases hp : p.1 = mt
    · by_cases hk : p.1 = k
      · have hkm : k = mt := hk.symm.trans hp
        simp [regLookup, hp, hk, hkm]
      · have hmk : ¬ (mt = k) := fun hh => hk (hp.trans hh)
        simp [regLookup, hp, hk, hmk, ih]
    · by_cases hk : p.1 = k
      · have hkm : ¬ (k = mt) := fun hh => hp (hk.symm ▸ hh)
        simp [regLookup, hp, hk, hkm]
      · simp [regLookup, hp, hk, ih]

theorem regLookup_append_new (l : List (String × List H)) (mt k : String) :
    regLookup k (l ++ [(mt, ([] : List H))])
      = match regLookup k l with
        | some v => some v
        | none => if k = mt then some [] else none := by
  induction l with
  | nil =>
    by_cases hk : k = mt
    · simp [regLookup, hk]
    · have hmk : ¬ (mt = k) := fun hh => hk hh.symm
      simp [regLookup, hk, hmk]
  | cons p rest ih =>
    by_cases hk : p.1 = k <;> simp [regLookup, hk, ih]

theorem regLookup_register (handlers : List (String × List H)) (mt k : String) (h : H) :
    regLookup k (register_message_handler handlers mt h)
      = if k = mt then some ((regLookup mt handlers).getD [] ++ [h])
        else regLookup k handlers := by
  unfold register_message_handler
  cases hmt : regLookup mt handlers with
  | some v =>
    simp only [hmt, Option.isSome_some, if_true]
    rw [regLookup_map_update]
    by_cases hk : k = mt
    · subst hk; rw [hmt]; simp
    · simp only [hk, if_false, if_neg hk]
      cases regLookup k handlers <;> simp [hk]
  | none =>
    simp only [hmt, Option.isSome_none, Bool.false_eq_true, if_false]
    rw [regLookup_map_update, regLookup_append_new]
    by_cases hk : k = mt
    · subst hk; rw [hmt]; simp
    · cases regLookup k handlers <;> simp [hk]

theorem regLookup_buildRegistry_go (regs : List (String × H))
    (handlers : List (String × List H)) (k : String) :
    regLookup k (regs.foldl (fun hs p => register_message_handler hs p.1 p.2) handlers)
      = match regLookup k handlers, handlersFor k regs with
        | some v, hf => some (v ++ hf)
        | none, [] => none
        | none, h :: t => some (h :: t) := by
  induction regs generalizing handlers with
  | nil => cases hl : regLookup k handlers <;> simp [handlersFor, hl]
  | cons p rest ih =>
    rw [List.foldl_cons, ih, regLookup_register]
    by_cases hk : k = p.1
    · have hfilter : handlersFor k (p :: rest) = p.2 :: handlersFor k rest := by
        simp [handlersFor, List.filter_cons, hk.symm]
      rw [if_pos hk, hfilter, ← hk]
      cases regLookup k handlers <;> simp
    · have hne : ¬ (p.1 = k) := fun hh => hk hh.symm
      have hfilter : handlersFor k (p :: rest) = handlersFor k rest := by
        simp [handlersFor, List.filter_cons, hne]
      rw [if_neg hk, hfilter]

theorem regLookup_buildRegistry (regs : List (String × H)) (k : String) :
    regLookup k (buildRegistry regs)
      = match handlersFor k regs with
        | [] => none
        | h :: t => some (h :: t) := by
  unfold buildRegistry
  rw [regLookup_buildRegistry_go]
  cases handlersFor k regs <;> rfl

/-- C4 — For every inbound frame that decodes successfully: when at least one
handler is registered for its discriminator, the client invokes every handler
registered for that discriminator, in registration order, each yielding its
own caught-and-reported outcome (a raising handler produces a reported error
event and every later handler still produces its event), and the connection
flag is unchanged; with zero handlers registered, the frame is discarded with
a single no-handler report and no error is raised. -/
theorem dispatch_invokes_all_handlers_in_order {H : Type}
    (regs : List (String × H)) (run : H → FrameObj → Except String Unit)
    (connected : Bool) (data : FrameObj) :
    (handlersFor (discriminator data) regs ≠ [] →
      on_message (buildRegistry regs) run connected (some data)
        = (connected, (handlersFor (discriminator data) regs).map fun h =>
            match run h data with
            | .ok _ => DispatchEvent.handlerOk h
            | .error e => DispatchEvent.handlerError h e)) ∧
    (handlersFor (discriminator data) regs = [] →
      on_message (buildRegistry regs) run connected (some data)
        = (connected, [DispatchEvent.noHandler (discriminator data)])) := by
  constructor
  · intro hne
    cases hhf : handlersFor (discriminator data) regs with
    | nil => exact absurd hhf hne
    | cons h t => simp only [on_message, regLookup_buildRegistry, hhf]; rfl
  · intro he
    simp only [on_message, regLookup_buildRegistry, he]

theorem dispatch_invokes_all_handlers_in_order_witness :
    handlersFor "GpioMessage" [("GpioMessage", 1), ("GpioMessage", 2)] ≠ [] ∧
    on_message (buildRegistry [("GpioMessage", 1), ("GpioMessage", 2)])
        (fun h _ => if h = 1 then Except.error "boom" else Except.ok ()) true
        (some ⟨some "GpioMessage", []⟩)
      = (true, [DispatchEvent.handlerError 1 "boom", DispatchEvent.handlerOk 2]) := by
  refine ⟨by decide, ?_⟩
  rw [(dispatch_invokes_all_handlers_in_order [("GpioMessage", 1), ("GpioMessage", 2)]
        (fun h _ => if h = 1 then Except.error "boom" else Except.ok ()) true
        ⟨some "GpioMessage", []⟩).1 (by decide)]
  rfl

/-- C9 — A frame that decodes as an object with no `type` field is dispatched
under the fixed discriminator `"unknown"`: every handler registered for the
name `"unknown"` is invoked on it, and with none registered it is discarded
with a single no-handler report and no error. -/
theorem missing_type_dispatches_unknown {H : Type}
    (regs : List (String × H)) (run : H → FrameObj → Except String Unit)
    (connected : Bool) (fields : List (String × String)) :
    discriminator ⟨none, fields⟩ = "unknown" ∧
    (handlersFor "unknown" regs ≠ [] →
      on_message (buildRegistry regs) run connected (some ⟨none, fields⟩)
        = (connected, (handlersFor "unknown" regs).map fun h =>
            match run h ⟨none, fields⟩ with
            | .ok _ => DispatchEvent.handlerOk h
            | .error e => DispatchEvent.handlerError h e)) ∧
    (handlersFor "unknown" regs = [] →
      on_message (buildRegistry regs) run connected (some ⟨none, fields⟩)
        = (connected, [DispatchEvent.noHandler "unknown"])) := by
  refine ⟨rfl, ?_, ?_⟩
  · intro hne
    cases hhf : handlersFor "unknown" regs with
    | nil => exact absurd hhf hne
    | cons h t =>
      simp only [on_message, discriminator, Option.getD_none, regLookup_buildRegistry, hhf]
      rfl
  · intro he
    simp only [on_message, discriminator, Option.getD_none, regLookup_buildRegistry, he]

theorem missing_type_dispatches_unknown_witness :
    handlersFor "unknown" [("unknown", 7)] ≠ [] ∧
    on_message (buildRegistry [("unknown", 7)]) (fun _ _ => Except.ok ()) true
        (some ⟨none, [("payload", "x")]⟩)
      = (true, [DispatchEvent.handlerOk 7]) ∧
    on_message (buildRegistry ([] : List (String × Nat))) (fun _ _ => Except.ok ()) true
        (some ⟨none, []⟩)
      = (true, [DispatchEvent.noHandler "unknown"]) := by
  refine ⟨by decide, ?_, ?_⟩
  · rw [(missing_type_dispatches_unknown [("unknown", 7)] (fun _ _ => Except.ok ()) true
          [("payload", "x")]).2.1 (by decide)]
    rfl
  · exact (missing_type_dispatches_unknown ([] : List (String × Nat))
      (fun _ _ => Except.ok ()) true []).2.2 rfl

/-- C3 counterexample — With auto-reconnect armed, an abnormal close passes
the single flag check and enters the fixed delay; an explicit `disconnect()`
issued during the delay clears the flag (state after the first two events:
flag cleared, zero attempts), yet the retry after the delay still initiates a
reconnection (attempts becomes 1): the flag is not checked again after the
delay, so the claim is false. -/
theorem disconnect_during_delay_counterexample :
    (rtRun ⟨true, true, false, 0⟩ [RtEvent.abnormalClose, RtEvent.userDisconnect]).shouldReconnect
        = false ∧
    (rtRun ⟨true, true, false, 0⟩ [RtEvent.abnormalClose, RtEvent.userDisconnect]).reconnectAttempts
        = 0 ∧
    (rtRun ⟨true, true, false, 0⟩
        [RtEvent.abnormalClose, RtEvent.userDisconnect, RtEvent.wakeRetry]).reconnectAttempts
        = 1 := by
  decide

theorem rt_no_reconnect_step (s : RtState) (hsl : s.sleeping = false)
    (hsr : s.shouldReconnect = false) (e : RtEvent) :
    (rtStep s e).sleeping = false ∧ (rtStep s e).shouldReconnect = false ∧
      (rtStep s e).reconnectAttempts = s.reconnectAttempts := by
  cases e <;> simp [rtStep, hsl, hsr]

/-- C3 amended — The auto-reconnect flag is read once, before the fixed
delay, and the retry after the delay is unconditional: a pending delay always
ends in a reconnection attempt regardless of the flag, so `disconnect()`
prevents reconnection only when it takes effect before the close handler's
flag check (from a state with the flag clear and no delay pending, no
sequence of events ever initiates a reconnection attempt). -/
theorem reconnect_flag_checked_before_delay :
    (∀ s : RtState, s.sleeping = true →
        (rtStep s RtEvent.wakeRetry).reconnectAttempts = s.reconnectAttempts + 1) ∧
    (∀ (s : RtState) (tr : List RtEvent), s.sleeping = false → s.shouldReconnect = false →
        (rtRun s tr).reconnectAttempts = s.reconnectAttempts) := by
  constructor
  · intro s hs
    simp [rtStep, hs]
  · intro s tr
    induction tr generalizing s with
    | nil => intro _ _; rfl
    | cons e rest ih =>
      intro hsl hsr
      obtain ⟨h1, h2, h3⟩ := rt_no_reconnect_step s hsl hsr e
      have : rtRun s (e :: rest) = rtRun (rtStep s e) rest := rfl
      rw [this, ih (rtStep s e) h1 h2, h3]

theorem reconnect_flag_checked_before_delay_witness :
    (⟨false, false, true, 3⟩ : RtState).sleeping = true ∧
    (rtStep ⟨false, false, true, 3⟩ RtEvent.wakeRetry).reconnectAttempts = 4 ∧
    (⟨false, true, false, 0⟩ : RtState).sleeping = false ∧
    (⟨false, true, false, 0⟩ : RtState).shouldReconnect = false ∧
    (rtRun ⟨false, true, false, 0⟩
        [RtEvent.abnormalClose, RtEvent.wakeRetry, RtEvent.userDisconnect]).reconnectAttempts
      = 0 := by
  refine ⟨rfl, ?_, rfl, rfl, ?_⟩
  · exact reconnect_flag_checked_before_delay.1 ⟨false, false, true, 3⟩ rfl
  · exact reconnect_flag_checked_before_delay.2 ⟨false, true, false, 0⟩
      [RtEvent.abnormalClose, RtEvent.wakeRetry, RtEvent.userDisconnect] rfl rfl

/-! ## Case conversion lemmas -/

theorem map_id_of_eq (l : List α) (f : α → α) (h : ∀ a ∈ l, f a = a) : l.map f = l := by
  induction l with
  | nil => rfl
  | cons a rest ih =>
    simp only [List.map_cons, h a (List.mem_cons_self a rest)]
    rw [ih fun x hx => h x (List.mem_cons_of_mem _ hx)]

theorem not_upper_of_snake_char {c : Char}
    (h : isLowerAZ c = true ∨ isDigit09 c = true ∨ c = '_') : isUpperAZ c = false := by
  have h90 : ¬ (65 ≤ c.toNat ∧ c.toNat ≤ 90) := by
    rcases h with hh | hh | hh
    · simp only [isLowerAZ, Bool.and_eq_true, decide_eq_true_eq] at hh; omega
    · simp only [isDigit09, Bool.and_eq_true, decide_eq_true_eq] at hh; omega
    · rw [hh]; decide
  rw [Bool.eq_false_iff]
  intro hu
  simp only [isUpperAZ, Bool.and_eq_true, decide_eq_true_eq] at hu
  exact h90 hu

theorem matchTail1_none {l : List Char} (h : ∀ c ∈ l, isUpperAZ c = false) :
    matchTail1 l = none := by
  cases l with
  | nil => rfl
  | cons u rest =>
    have hu : isUpperAZ u = false := h u (List.mem_cons_self u rest)
    simp [matchTail1, hu]

theorem sub1Fuel_id (fuel : Nat) (l : List Char) (h : ∀ c ∈ l, isUpperAZ c = false) :
    sub1Fuel fuel l = l := by
  induction fuel generalizing l with
  | zero => cases l <;> rfl
  | succ fuel ih =>
    cases l with
    | nil => rfl
    | cons c rest =>
      have hr : ∀ x ∈ rest, isUpperAZ x = false :=
        fun x hx => h x (List.mem_cons_of_mem _ hx)
      simp [sub1Fuel, matchTail1_none hr, ih rest hr]

theorem sub2_id (l : List Char) (h : ∀ c ∈ l, isUpperAZ c = false) : sub2 l = l := by
  induction l with
  | nil => rfl
  | cons c rest ih =>
    cases rest with
    | nil => rfl
    | cons u rest2 =>
      have hu : isUpperAZ u = false := h u (List.mem_cons_of_mem _ (List.mem_cons_self u rest2))
      have hr : ∀ x ∈ u :: rest2, isUpperAZ x = false :=
        fun x hx => h x (List.mem_cons_of_mem _ hx)
      simp [sub2, hu, ih hr]

theorem snakeL_id (l : List Char) (h : ∀ c ∈ l, isUpperAZ c = false) : snakeL l = l := by
  unfold snakeL sub1
  rw [sub1Fuel_id _ _ h, sub2_id _ h]
  exact map_id_of_eq _ _ fun c hc => by simp [asciiLower, h c hc]

theorem splitOnChar_no_sep (sep : Char) (l : List Char) (h : ∀ c ∈ l, c ≠ sep) :
    splitOnChar sep l = [l] := by
  induction l with
  | nil => rfl
  | cons c rest ih =>
    simp [splitOnChar, ih fun x hx => h x (List.mem_cons_of_mem _ hx),
      h c (List.mem_cons_self c rest)]

/-- C6 counterexample — On `"fooBar"` the kebab law holds, but Pascal
conversion yields `Foobar` (Python `capitalize` lowercases the tail and the
input has no `-`, `_` or space to split on) while the word-capitalized snake
form is `FooBar`: the claimed Pascal/snake consistency fails. -/
theorem pascal_snake_consistency_counterexample :
    to_snake_case "fooBar" = "foo_bar" ∧
    to_pascal_case "fooBar" = "Foobar" ∧
    pascalOfSnakeSpec "fooBar" = "FooBar" ∧
    to_pascal_case "fooBar" ≠ pascalOfSnakeSpec "fooBar" := by
  decide

/-- C6 amended — The kebab law of the claim holds for every input:
`to_kebab_case x` is `to_snake_case x` with `_` replaced by `-` (it is the
source's own definition).  The Pascal law fails in general (see the
counterexample) and holds on the inputs made only of lowercase ASCII
letters, digits and underscores, on which snake conversion is the
identity. -/
theorem case_conversion_consistency_amended (x : String)
    (h : ∀ c ∈ x.data, isLowerAZ c = true ∨ isDigit09 c = true ∨ c = '_') :
    (∀ y : String, to_kebab_case y = kebabOfSnakeSpec y) ∧
    to_pascal_case x = pascalOfSnakeSpec x := by
  refine ⟨fun y => rfl, ?_⟩
  have hup : ∀ c ∈ x.data, isUpperAZ c = false :=
    fun c hc => not_upper_of_snake_char (h c hc)
  have hsnake : to_snake_case x = x := by
    unfold to_snake_case
    rw [snakeL_id _ hup]
  unfold pascalOfSnakeSpec
  rw [hsnake]
  unfold to_pascal_case pascalL
  have hdash : (x.data.map fun c => if c = '-' then '_' else c) = x.data := by
    refine map_id_of_eq _ _ fun c hc => ?_
    have hcd : c ≠ '-' := by
      rcases h c hc with hh | hh | hh
      · intro he; rw [he] at hh; exact absurd hh (by decide)
      · intro he; rw [he] at hh; exact absurd hh (by decide)
      · rw [hh]; decide
    rw [if_neg hcd]
  have hspace : (x.data.map fun c => if c = ' ' then '_' else c) = x.data := by
    refine map_id_of_eq _ _ fun c hc => ?_
    have hcs : c ≠ ' ' := by
      rcases h c hc with hh | hh | hh
      · intro he; rw [he] at hh; exact absurd hh (by decide)
      · intro he; rw [he] at hh; exact absurd hh (by decide)
      · rw [hh]; decide
    rw [if_neg hcs]
  rw [hdash, hspace]

theorem case_conversion_consistency_amended_witness :
    (∀ c ∈ ("gpio_message" : String).data,
        isLowerAZ c = true ∨ isDigit09 c = true ∨ c = '_') ∧
    to_kebab_case "GpioMessage" = kebabOfSnakeSpec "GpioMessage" ∧
    to_pascal_case "gpio_message" = pascalOfSnakeSpec "gpio_message" :=
  ⟨by decide,
    (case_conversion_consistency_amended "gpio_message" (by decide)).1 "GpioMessage",
    (case_conversion_consistency_amended "gpio_message" (by decide)).2⟩

/-- C10 — The generated client class name deletes every space from the title
before Pascal-casing and appends `Client`; for a title whose words are
separated only by spaces (no `-` or `_`), the words collapse into a single
segment, which `capitalize` renders with only its first letter uppercase —
the title `Phobos GPIO interface API` yields `PhobosgpiointerfaceapiClient`. -/
theorem class_name_collapses_spaced_title (title : String)
    (h : ∀ c ∈ title.data, c ≠ '-' ∧ c ≠ '_') :
    client_class_name_of title
      = String.mk (capitalizePy ((removeSpaces title).data)) ++ "Client" ∧
    client_class_name_of "Phobos GPIO interface API" = "PhobosgpiointerfaceapiClient" := by
  constructor
  · have hsub : ∀ c ∈ (removeSpaces title).data, c ∈ title.data ∧ c ≠ ' ' := by
      intro c hc
      unfold removeSpaces at hc
      simp only [List.mem_filter, decide_eq_true_eq] at hc
      exact hc
    unfold client_class_name_of to_pascal_case pascalL
    have hdash : ((removeSpaces title).data.map fun c => if c = '-' then '_' else c)
        = (removeSpaces title).data :=
      map_id_of_eq _ _ fun c hc => if_neg (h c (hsub c hc).1).1
    have hspace : ((removeSpaces title).data.map fun c => if c = ' ' then '_' else c)
        = (removeSpaces title).data :=
      map_id_of_eq _ _ fun c hc => if_neg (hsub c hc).2
    rw [hdash, hspace]
    unfold splitUnderscore
    rw [splitOnChar_no_sep _ _ fun c hc => (h c (hsub c hc).1).2]
    simp
  · decide

theorem class_name_collapses_spaced_title_witness :
    (∀ c ∈ ("Phobos GPIO interface API" : String).data, c ≠ '-' ∧ c ≠ '_') ∧
    client_class_name_of "Phobos GPIO interface API"
      = String.mk (capitalizePy ((removeSpaces "Phobos GPIO interface API").data))
          ++ "Client" :=
  ⟨by decide,
    (class_name_collapses_spaced_title "Phobos GPIO interface API" (by decide)).1⟩

end AsyncApiGen
